import Mathlib

/-!
Verification of the mg_rpc dispatch core (ALLTERCO/rpc-common).

The repository ships the public header src/mg_rpc/mg_rpc.h; the
implementation file mg_rpc.c is not among the sources, so the dispatcher,
the frame parser and the routing logic are modelled from the specification
(spec.md sections 3, 4.1, 4.3, 6, 7) and from the contracts stated in the
header comments.  Strings model struct mg_str (the empty string standing
for an absent/NULL field, as in the C API where routing treats them alike);
64-bit request ids are modelled as Int; callbacks and their opaque void*
arguments are modelled as identifying tokens (Nat), and every callback
invocation is recorded as an explicit event so that "invoked exactly once
with these arguments" becomes a statement about the event list.
-/

/-- The reserved "default" destination sentinel, from the header:
#define MG_RPC_DST_DEFAULT "*". -/
def MG_RPC_DST_DEFAULT : String := "*"

/-- Modelled from the spec: the numeric value of the fixed "method not
found" error code is not given by the header (mg_rpc.c is not in the
sources); the spec only requires a fixed code, modelled here as 404. -/
def MG_RPC_ERR_NOT_FOUND : Int := 404

/-- struct mg_rpc_frame from the header: version, 64-bit id, error code,
src/dst/tag, method/args, result/error_msg, auth.  result and error_msg
are Options because the parser's conflict rule distinguishes a present
field from an absent one. -/
structure mg_rpc_frame where
  version : Int
  id : Int
  error_code : Int
  src : String
  dst : String
  tag : String
  method : String
  args : String
  result : Option String
  error_msg : Option String
  auth : String
deriving Repr, DecidableEq

/-- Modelled from the spec: the wire grammar is delegated to an external
codec collaborator (spec 1, 4.1), so the encoded input of
mg_rpc_parse_frame is modelled as either a malformed byte string or a
structured record of the optional fields the codec can deliver. -/
inductive Wire where
  | malformed
  | obj (version : Option Int) (id : Option Int)
      (src dst tag : Option String)
      (method args : Option String)
      (result : Option String) (error_code : Option Int)
      (error_msg : Option String) (auth : Option String)
deriving Repr, DecidableEq

/-- Modelled from the spec: mg_rpc_parse_frame (mg_rpc.c is not in the
sources).  Rejects malformed encodings, frames with id 0 (or unset) and no
method, and frames where a result and an error are both present; an error
code with no error message is acceptable (spec 3 and 4.1). -/
def mg_rpc_parse_frame : Wire → Option mg_rpc_frame
  | .malformed => none
  | .obj v i s d t m a r ec em au =>
    if i.getD 0 = 0 ∧ m.getD "" = "" then none
    else if r.isSome ∧ (ec.getD 0 ≠ 0 ∨ em.isSome) then none
    else some
      { version := v.getD 0
        id := i.getD 0
        error_code := ec.getD 0
        src := s.getD ""
        dst := d.getD ""
        tag := t.getD ""
        method := m.getD ""
        args := a.getD ""
        result := r
        error_msg := em
        auth := au.getD "" }

/-- Turns an mg_str-style field into its encoded form: empty fields are
omitted from the wire encoding. -/
def strField (s : String) : Option String :=
  if s = "" then none else some s

/-- Modelled from the spec: serialization is the inverse of parse
(spec 4.1); given a frame's fields it produces the wire encoding,
omitting empty/zero fields as the codec does. -/
def serialize_frame (f : mg_rpc_frame) : Wire :=
  .obj (some f.version)
    (if f.id = 0 then none else some f.id)
    (strField f.src) (strField f.dst) (strField f.tag)
    (strField f.method) (strField f.args)
    f.result
    (if f.error_code = 0 then none else some f.error_code)
    f.error_msg
    (strField f.auth)

/-- C4: mg_rpc_parse_frame rejects malformed encodings, frames with id 0
and no method, and frames with both a result and an error present; an
error code with no error message (and no result) is accepted. -/
theorem c4_parse_frame_validation :
    mg_rpc_parse_frame Wire.malformed = none ∧
    (∀ v i s d t m a r ec em au, i.getD 0 = 0 → m.getD "" = "" →
      mg_rpc_parse_frame (Wire.obj v i s d t m a r ec em au) = none) ∧
    (∀ v i s d t m a r ec em au, r.isSome → (ec.getD 0 ≠ 0 ∨ em.isSome) →
      mg_rpc_parse_frame (Wire.obj v i s d t m a r ec em au) = none) ∧
    (∀ v i s d t m a ec au, (i.getD 0 ≠ 0 ∨ m.getD "" ≠ "") →
      (mg_rpc_parse_frame (Wire.obj v i s d t m a none ec none au)).isSome = true) := by
  refine ⟨rfl, ?_, ?_, ?_⟩
  · intro v i s d t m a r ec em au hi hm
    simp [mg_rpc_parse_frame, hi, hm]
  · intro v i s d t m a r ec em au hr hc
    by_cases h0 : i.getD 0 = 0 ∧ m.getD "" = ""
    · simp [mg_rpc_parse_frame, h0]
    · simp only [mg_rpc_parse_frame, if_neg h0]
      rw [if_pos ⟨hr, hc⟩]
  · intro v i s d t m a ec au h
    have h0 : ¬(i.getD 0 = 0 ∧ m.getD "" = "") := by
      rcases h with h | h
      · exact fun hc => h hc.1
      · exact fun hc => h hc.2
    simp [mg_rpc_parse_frame, h0]

/-- Witness for C4 at concrete inputs: a frame with id 0 and no method is
rejected, a frame with both result and error is rejected, and a frame with
an error code but no message is accepted. -/
theorem c4_parse_frame_validation_witness :
    mg_rpc_parse_frame (Wire.obj none none none none none none none none none none none) = none ∧
    mg_rpc_parse_frame (Wire.obj none (some 7) none none none none none (some "r") (some 1) none none) = none ∧
    (mg_rpc_parse_frame (Wire.obj none (some 7) none none none none none none (some 1) none none)).isSome = true :=
  ⟨c4_parse_frame_validation.2.1 none none none none none none none none none none none rfl rfl,
   c4_parse_frame_validation.2.2.1 none (some 7) none none none none none (some "r") (some 1) none none rfl
     (Or.inl (by decide)),
   c4_parse_frame_validation.2.2.2 none (some 7) none none none none none (some 1) none
     (Or.inl (by decide))⟩

/-- C5: for every valid request frame (non-empty method, no result, no
error), serializing it and parsing the result round-trips the method,
args, id and tag fields. -/
theorem c5_parse_serialize_roundtrip (f : mg_rpc_frame)
    (hm : f.method ≠ "") (hr : f.result = none)
    (hec : f.error_code = 0) (hem : f.error_msg = none) :
    ∃ g, mg_rpc_parse_frame (serialize_frame f) = some g ∧
      g.method = f.method ∧ g.args = f.args ∧ g.id = f.id ∧ g.tag = f.tag := by
  have hmf : strField f.method = some f.method := by
    simp [strField, hm]
  have h0 : ¬(((if f.id = 0 then none else some f.id) : Option Int).getD 0 = 0 ∧
      (strField f.method).getD "" = "") := by
    intro hc
    exact hm (by simpa [hmf] using hc.2)
  have h1 : ¬((f.result.isSome : Prop) ∧
      (((if f.error_code = 0 then none else some f.error_code) : Option Int).getD 0 ≠ 0 ∨
        (f.error_msg.isSome : Prop))) := by
    intro hc
    rw [hr] at hc
    exact (Bool.false_ne_true) hc.1
  simp only [serialize_frame, mg_rpc_parse_frame, if_neg h0, if_neg h1]
  refine ⟨_, rfl, ?_, ?_, ?_, ?_⟩
  · simp [hmf]
  · by_cases ha : f.args = "" <;> simp [strField, ha]
  · by_cases hid : f.id = 0 <;> simp [hid]
  · by_cases ht : f.tag = "" <;> simp [strField, ht]

/-- Witness for C5: the round-trip theorem applied to a concrete request
frame. -/
theorem c5_parse_serialize_roundtrip_witness :
    ∃ g, mg_rpc_parse_frame (serialize_frame
        { version := 2, id := 7, error_code := 0, src := "dev1", dst := "",
          tag := "t", method := "Math.Add", args := "{a:2,b:3}",
          result := none, error_msg := none, auth := "" }) = some g ∧
      g.method = "Math.Add" ∧ g.args = "{a:2,b:3}" ∧ g.id = 7 ∧ g.tag = "t" :=
  c5_parse_serialize_roundtrip _ (by decide) rfl rfl rfl

/-- struct mg_rpc_channel, reduced to the capability surface the spec
requires of a channel (spec 4.2): its learned/registered destination,
trust flag, open/connected state, busy/backpressure state and type
string. -/
structure mg_rpc_channel where
  dst : String
  is_trusted : Bool
  is_open : Bool
  is_busy : Bool
  ch_type : String
deriving Repr, DecidableEq

/-- An outbound pending-call record (spec 3): request id, destination,
and the response callback with its opaque argument, both modelled as
identifying tokens. -/
structure PendingCall where
  id : Int
  dst : String
  cb : Nat
  cb_arg : Nat
deriving Repr, DecidableEq

/-- A handler registration (spec 3): method name, argument-shape
descriptor, callback and callback argument. -/
structure HandlerReg where
  method : String
  args_fmt : String
  cb : Nat
  cb_arg : Nat
deriving Repr, DecidableEq

/-- struct mg_rpc, modelled from the spec (mg_rpc.c is not in the
sources): the dispatcher owns the channel set, the pending-call table,
the handler registry, the single prehandler slot, the observer list and
the next outbound request id. -/
structure mg_rpc where
  cfg_id : String
  channels : List mg_rpc_channel
  pending : List PendingCall
  handlers : List HandlerReg
  prehandler : Option Nat
  observers : List (Nat × Nat)
  next_id : Int
deriving Repr, DecidableEq

/-- enum mg_rpc_event from the header. -/
inductive mg_rpc_event where
  | channel_open
  | channel_closed
deriving Repr, DecidableEq

/-- Observable effects of dispatch: every callback invocation, observer
notification and outbound frame is recorded as one event, so that
"invoked exactly once" is a statement about the event list. -/
inductive Event where
  | resultCb (cb cb_arg : Nat) (result : String) (error_code : Int)
      (error_msg : String) (channel_is_trusted : Bool)
  | frameSent (ch : mg_rpc_channel) (f : mg_rpc_frame)
  | errorSent (id : Int) (error_code : Int)
  | observerEv (cb cb_arg : Nat) (ev : mg_rpc_event) (dst : String)
  | prehandlerCall (cb : Nat) (id : Int) (method : String)
  | handlerCall (cb : Nat) (id : Int) (method : String)
deriving Repr, DecidableEq

/-- True for the handler-invocation events. -/
def Event.isHandlerCall : Event → Bool
  | .handlerCall _ _ _ => true
  | _ => false

/-- True for the prehandler-invocation events. -/
def Event.isPrehandlerCall : Event → Bool
  | .prehandlerCall _ _ _ => true
  | _ => false

/-- True for an error response carrying the method-not-found code. -/
def Event.isNotFoundError : Event → Bool
  | .errorSent _ code => code == MG_RPC_ERR_NOT_FOUND
  | _ => false

/-- Modelled from the spec: mg_rpc_add_channel (mg_rpc.c is not in the
sources).  A non-empty destination that is already registered must fail
the registration call rather than corrupt shared state (spec 3, 7);
empty ("learn later") destinations may be duplicated. -/
def mg_rpc_add_channel (c : mg_rpc) (dst : String) (ch : mg_rpc_channel)
    (is_trusted : Bool) : mg_rpc × Bool :=
  if dst ≠ "" ∧ c.channels.any (fun e => e.dst == dst) then (c, false)
  else ({ c with channels := c.channels ++ [{ ch with dst := dst, is_trusted := is_trusted }] }, true)

/-- Modelled from the spec: response dispatch inside the frame handler
(mg_rpc.c is not in the sources).  A frame with an empty method is a
response: look up the pending-call table by id; if absent, drop the
frame silently; if present, remove the record from the table, then
invoke its callback with the frame's result/error and the channel trust
info (spec 4.3). -/
def handleResponse (c : mg_rpc) (channel_is_trusted : Bool)
    (f : mg_rpc_frame) : mg_rpc × List Event :=
  match c.pending.find? (fun p => p.id == f.id) with
  | none => (c, [])
  | some p =>
    ({ c with pending := c.pending.filter (fun q => q.id != f.id) },
     [Event.resultCb p.cb p.cb_arg (f.result.getD "") f.error_code
        (f.error_msg.getD "") channel_is_trusted])

/-- Modelled from the spec: destination learning (mg_rpc.c is not in the
sources).  When a frame arrives on a channel whose destination is still
unlearned (empty) and the frame carries a non-empty source, the
dispatcher binds that source as the channel's destination and notifies
every registered observer with a channel-open event (spec 4.3). -/
def learnDst (c : mg_rpc) (i : Nat) (src : String) : mg_rpc × List Event :=
  match c.channels[i]? with
  | none => (c, [])
  | some ch =>
    if ch.dst = "" ∧ src ≠ "" then
      ({ c with channels := c.channels.set i { ch with dst := src } },
       c.observers.map (fun p => Event.observerEv p.1 p.2 mg_rpc_event.channel_open src))
    else (c, [])

/-- Modelled from the spec: the handler-resolution tail of inbound
request dispatch (mg_rpc.c is not in the sources).  Unknown method sends
a not-found error response without touching any handler; otherwise the
prehandler (if registered) runs first and its verdict gates the handler
(spec 4.3; header: the prehandler is called for existing handlers
only). -/
def requestEvents (c : mg_rpc) (f : mg_rpc_frame) (preOk : Bool) : List Event :=
  match c.handlers.find? (fun h => h.method == f.method) with
  | none => [Event.errorSent f.id MG_RPC_ERR_NOT_FOUND]
  | some h =>
    match c.prehandler with
    | none => [Event.handlerCall h.cb f.id f.method]
    | some pcb =>
      if preOk then
        [Event.prehandlerCall pcb f.id f.method, Event.handlerCall h.cb f.id f.method]
      else
        [Event.prehandlerCall pcb f.id f.method]

/-- Modelled from the spec: inbound request dispatch (mg_rpc.c is not in
the sources).  A frame with a method is a request, arriving on channel
index i: first the destination-learning step, then handler resolution
(spec 4.3).  preOk is the verdict the registered prehandler would
return. -/
def handleRequest (c : mg_rpc) (i : Nat) (f : mg_rpc_frame) (preOk : Bool) :
    mg_rpc × List Event :=
  ((learnDst c i f.src).1,
   (learnDst c i f.src).2 ++ requestEvents (learnDst c i f.src).1 f preOk)

/-- Modelled from the spec: outbound destination resolution (mg_rpc.c is
not in the sources).  An explicit destination selects the channel whose
destination equals it, with no fallback; an unspecified destination
selects the default-sentinel registration, but only if it is open
(spec 4.3). -/
def resolveOutbound (c : mg_rpc) (dst : String) : Option mg_rpc_channel :=
  if dst ≠ "" then c.channels.find? (fun ch => ch.dst == dst)
  else
    match c.channels.find? (fun ch => ch.dst == MG_RPC_DST_DEFAULT) with
    | none => none
    | some ch => if ch.is_open then some ch else none

/-- Modelled from the spec: mg_rpc_callf (mg_rpc.c is not in the
sources).  Resolves the destination; on failure returns false with no
state change and no frame sent.  On success assigns a fresh request id,
creates a pending-call record only when a result callback is supplied
(the header: cb is optional, in which case the request is sent but a
response is not required), and emits the request frame. -/
def mg_rpc_callf (c : mg_rpc) (method : String) (cb : Option (Nat × Nat))
    (dst : String) (args : String) : mg_rpc × Bool × List Event :=
  match resolveOutbound c dst with
  | none => (c, false, [])
  | some ch =>
    let fid := c.next_id
    ({ c with
        next_id := fid + 1
        pending :=
          match cb with
          | none => c.pending
          | some cba => { id := fid, dst := dst, cb := cba.1, cb_arg := cba.2 } :: c.pending },
     true,
     [Event.frameSent ch
        { version := 2, id := fid, error_code := 0, src := c.cfg_id, dst := dst,
          tag := "", method := method, args := args, result := none,
          error_msg := none, auth := "" }])

/-- mg_rpc_is_connected, modelled from the spec and the header comment:
true iff the default channel registration exists and its channel is
open. -/
def mg_rpc_is_connected (c : mg_rpc) : Bool :=
  match c.channels.find? (fun ch => ch.dst == MG_RPC_DST_DEFAULT) with
  | some ch => ch.is_open
  | none => false

/-- mg_rpc_can_send, modelled from the spec and the header comment: true
iff the default channel registration exists, is open and is not
busy. -/
def mg_rpc_can_send (c : mg_rpc) : Bool :=
  match c.channels.find? (fun ch => ch.dst == MG_RPC_DST_DEFAULT) with
  | some ch => ch.is_open && !ch.is_busy
  | none => false

/-- learnDst only ever touches the channel set: the handler registry, the
prehandler slot, the observer list and the pending-call table are
unchanged by destination learning. -/
theorem learnDst_preserves (c : mg_rpc) (i : Nat) (s : String) :
    (learnDst c i s).1.handlers = c.handlers ∧
    (learnDst c i s).1.prehandler = c.prehandler ∧
    (learnDst c i s).1.observers = c.observers ∧
    (learnDst c i s).1.pending = c.pending := by
  unfold learnDst
  cases hch : c.channels[i]? with
  | none => exact ⟨rfl, rfl, rfl, rfl⟩
  | some ch =>
    by_cases h : ch.dst = "" ∧ s ≠ ""
    · simp [h]
    · simp [h]

/-- Every event emitted by the learning step is an observer
notification: never a handler call, a prehandler call or an error
response. -/
theorem learnDst_events_observer (c : mg_rpc) (i : Nat) (s : String) :
    ∀ e ∈ (learnDst c i s).2,
      e.isHandlerCall = false ∧ e.isPrehandlerCall = false ∧ e.isNotFoundError = false := by
  unfold learnDst
  cases hch : c.channels[i]? with
  | none =>
    intro e he
    simp at he
  | some ch =>
    intro e he
    by_cases h : ch.dst = "" ∧ s ≠ ""
    · simp only [if_pos h, List.mem_map] at he
      rcases he with ⟨p, _, rfl⟩
      exact ⟨rfl, rfl, rfl⟩
    · simp [if_neg h] at he

/-- C8: is-connected holds iff the default-sentinel registration exists
and its channel is open; can-send holds iff is-connected holds and that
channel is not busy; hence can-send implies is-connected. -/
theorem c8_connectivity (c : mg_rpc) :
    (mg_rpc_is_connected c = true ↔
      ∃ ch, c.channels.find? (fun e => e.dst == MG_RPC_DST_DEFAULT) = some ch ∧
        ch.is_open = true) ∧
    (mg_rpc_can_send c = true ↔
      mg_rpc_is_connected c = true ∧
      ∃ ch, c.channels.find? (fun e => e.dst == MG_RPC_DST_DEFAULT) = some ch ∧
        ch.is_busy = false) ∧
    (mg_rpc_can_send c = true → mg_rpc_is_connected c = true) := by
  cases hf : c.channels.find? (fun e => e.dst == MG_RPC_DST_DEFAULT) with
  | none => simp [mg_rpc_is_connected, mg_rpc_can_send, hf]
  | some ch =>
    simp only [mg_rpc_is_connected, mg_rpc_can_send, hf]
    cases hopen : ch.is_open <;> cases hbusy : ch.is_busy <;>
      simp [hopen, hbusy]

/-- Witness for C8: on a state with one open, non-busy default channel,
can-send implies is-connected. -/
theorem c8_connectivity_witness :
    mg_rpc_is_connected
      { cfg_id := "dev1",
        channels := [{ dst := "*", is_trusted := true, is_open := true,
                       is_busy := false, ch_type := "uart" }],
        pending := [], handlers := [], prehandler := none, observers := [],
        next_id := 1 } = true :=
  (c8_connectivity _).2.2 (by decide)

/-- C3: adding a channel under a non-empty, non-default destination that
is already registered fails and leaves the dispatcher unchanged; adding
two channels with empty ("learn later") destinations succeeds both
times. -/
theorem c3_add_channel_duplicates (c : mg_rpc) (d : String)
    (ch1 ch2 : mg_rpc_channel) (t1 t2 : Bool)
    (hne : d ≠ "") (hnd : d ≠ MG_RPC_DST_DEFAULT)
    (hex : c.channels.any (fun e => e.dst == d) = true) :
    mg_rpc_add_channel c d ch2 t2 = (c, false) ∧
    (mg_rpc_add_channel c "" ch1 t1).2 = true ∧
    (mg_rpc_add_channel (mg_rpc_add_channel c "" ch1 t1).1 "" ch2 t2).2 = true := by
  refine ⟨?_, ?_, ?_⟩
  · simp [mg_rpc_add_channel, hne, hex]
  · simp [mg_rpc_add_channel]
  · simp [mg_rpc_add_channel]

/-- Witness for C3: with a channel registered under "peer", a second
registration under "peer" fails while two empty-destination
registrations succeed. -/
theorem c3_add_channel_duplicates_witness :
    mg_rpc_add_channel
      { cfg_id := "dev1",
        channels := [{ dst := "peer", is_trusted := false, is_open := true,
                       is_busy := false, ch_type := "tcp" }],
        pending := [], handlers := [], prehandler := none, observers := [],
        next_id := 1 } "peer"
      { dst := "", is_trusted := false, is_open := false, is_busy := false,
        ch_type := "tcp" } false =
      ({ cfg_id := "dev1",
         channels := [{ dst := "peer", is_trusted := false, is_open := true,
                        is_busy := false, ch_type := "tcp" }],
         pending := [], handlers := [], prehandler := none, observers := [],
         next_id := 1 }, false) :=
  (c3_add_channel_duplicates _ "peer"
    { dst := "", is_trusted := false, is_open := false, is_busy := false, ch_type := "tcp" }
    { dst := "", is_trusted := false, is_open := false, is_busy := false, ch_type := "tcp" }
    false false (by decide) (by decide) (by decide)).1

/-- C6: when no registered channel matches the explicit destination and
no open default-sentinel channel exists, an outbound call fails
immediately: false is returned, no frame is sent, and the dispatcher
state is unchanged. -/
theorem c6_callf_not_connected (c : mg_rpc) (m dst args : String)
    (cb : Option (Nat × Nat))
    (h1 : dst = "" ∨ ∀ ch ∈ c.channels, ch.dst ≠ dst)
    (h2 : ∀ ch ∈ c.channels, ¬(ch.dst = MG_RPC_DST_DEFAULT ∧ ch.is_open = true)) :
    mg_rpc_callf c m cb dst args = (c, false, []) := by
  have hres : resolveOutbound c dst = none := by
    unfold resolveOutbound
    by_cases hd : dst = ""
    · rw [if_neg (by simp [hd])]
      cases hf : c.channels.find? (fun ch => ch.dst == MG_RPC_DST_DEFAULT) with
      | none => rfl
      | some ch =>
        have hmem := List.mem_of_find?_eq_some hf
        have hp : ch.dst = MG_RPC_DST_DEFAULT := by
          simpa using List.find?_some hf
        have hno : ¬ ch.is_open = true := fun ho => h2 ch hmem ⟨hp, ho⟩
        simp [hno]
    · rw [if_pos hd]
      rcases h1 with h1 | h1
      · exact absurd h1 hd
      · refine List.find?_eq_none.mpr ?_
        intro x hx hbeq
        exact h1 x hx (by simpa using hbeq)
  unfold mg_rpc_callf
  rw [hres]

/-- Witness for C6: a call to a destination no channel serves, on a state
whose only channel is neither that destination nor an open default, fails
with no state change and no events. -/
theorem c6_callf_not_connected_witness :
    mg_rpc_callf
      { cfg_id := "dev1",
        channels := [{ dst := "other", is_trusted := false, is_open := true,
                       is_busy := false, ch_type := "tcp" }],
        pending := [], handlers := [], prehandler := none, observers := [],
        next_id := 1 } "Sys.GetInfo" none "peer" "" =
      ({ cfg_id := "dev1",
         channels := [{ dst := "other", is_trusted := false, is_open := true,
                        is_busy := false, ch_type := "tcp" }],
         pending := [], handlers := [], prehandler := none, observers := [],
         next_id := 1 }, false, []) :=
  c6_callf_not_connected _ "Sys.GetInfo" "peer" "" none
    (Or.inr (by decide)) (by decide)

/-- C1: dispatching a response frame whose id matches a pending call
removes that record from the table and invokes its callback exactly once
with the frame's result, error code, error message and the channel trust
flag, after which the table no longer contains the id; a response with
no matching pending call leaves the dispatcher unchanged and produces no
events. -/
theorem c1_response_dispatch (c : mg_rpc) (tr : Bool) (f : mg_rpc_frame) :
    (c.pending.find? (fun p => p.id == f.id) = none →
      handleResponse c tr f = (c, [])) ∧
    (∀ p, c.pending.find? (fun q => q.id == f.id) = some p →
      (handleResponse c tr f).2 =
        [Event.resultCb p.cb p.cb_arg (f.result.getD "") f.error_code
          (f.error_msg.getD "") tr] ∧
      (handleResponse c tr f).1.pending.find? (fun q => q.id == f.id) = none ∧
      (handleResponse c tr f).1.channels = c.channels ∧
      (handleResponse c tr f).1.handlers = c.handlers) := by
  constructor
  · intro h
    simp [handleResponse, h]
  · intro p hp
    simp only [handleResponse, hp]
    refine ⟨by trivial, ?_, by trivial, by trivial⟩
    refine List.find?_eq_none.mpr ?_
    intro x hx
    have hne : x.id ≠ f.id := by
      simpa using (List.mem_filter.mp hx).2
    simp [hne]

/-- Witness for C1: on a state with a single pending call of id 7, a
response frame with id 7 retires the record and invokes the callback
once; the table no longer contains id 7. -/
theorem c1_response_dispatch_witness :
    (handleResponse
      { cfg_id := "dev1", channels := [],
        pending := [{ id := 7, dst := "", cb := 3, cb_arg := 4 }],
        handlers := [], prehandler := none, observers := [], next_id := 8 }
      true
      { version := 2, id := 7, error_code := 0, src := "", dst := "",
        tag := "", method := "", args := "", result := some "ok",
        error_msg := none, auth := "" }).2 =
      [Event.resultCb 3 4 "ok" 0 "" true] ∧
    ((handleResponse
      { cfg_id := "dev1", channels := [],
        pending := [{ id := 7, dst := "", cb := 3, cb_arg := 4 }],
        handlers := [], prehandler := none, observers := [], next_id := 8 }
      true
      { version := 2, id := 7, error_code := 0, src := "", dst := "",
        tag := "", method := "", args := "", result := some "ok",
        error_msg := none, auth := "" }).1.pending.find?
        (fun q => q.id == (7 : Int))) = none := by
  have h := (c1_response_dispatch
    { cfg_id := "dev1", channels := [],
      pending := [{ id := 7, dst := "", cb := 3, cb_arg := 4 }],
      handlers := [], prehandler := none, observers := [], next_id := 8 }
    true
    { version := 2, id := 7, error_code := 0, src := "", dst := "",
      tag := "", method := "", args := "", result := some "ok",
      error_msg := none, auth := "" }).2
    { id := 7, dst := "", cb := 3, cb_arg := 4 } (by decide)
  exact ⟨h.1, h.2.1⟩

/-- C10: an outbound call made without a result callback creates no
pending-call record, and a later response frame carrying that request's
id (fresh, hence absent from the table) is dropped with no state change
and no events. -/
theorem c10_no_callback_no_pending (c : mg_rpc) (m dst args : String)
    (tr : Bool) (f : mg_rpc_frame)
    (hid : f.id = c.next_id)
    (hfresh : c.pending.find? (fun p => p.id == c.next_id) = none) :
    (mg_rpc_callf c m none dst args).1.pending = c.pending ∧
    handleResponse (mg_rpc_callf c m none dst args).1 tr f =
      ((mg_rpc_callf c m none dst args).1, []) := by
  have hpend : (mg_rpc_callf c m none dst args).1.pending = c.pending := by
    unfold mg_rpc_callf
    cases hr : resolveOutbound c dst <;> simp
  refine ⟨hpend, ?_⟩
  unfold handleResponse
  rw [hpend, hid, hfresh]

/-- Witness for C10: sending a call with no callback from a concrete
connected state leaves the pending table empty, and the response with
the assigned id is dropped. -/
theorem c10_no_callback_no_pending_witness :
    (mg_rpc_callf
      { cfg_id := "dev1",
        channels := [{ dst := "*", is_trusted := true, is_open := true,
                       is_busy := false, ch_type := "uart" }],
        pending := [], handlers := [], prehandler := none, observers := [],
        next_id := 5 } "Sys.GetInfo" none "" "").1.pending = [] :=
  (c10_no_callback_no_pending
    { cfg_id := "dev1",
      channels := [{ dst := "*", is_trusted := true, is_open := true,
                     is_busy := false, ch_type := "uart" }],
      pending := [], handlers := [], prehandler := none, observers := [],
      next_id := 5 } "Sys.GetInfo" "" "" true
    { version := 2, id := 5, error_code := 0, src := "", dst := "", tag := "",
      method := "", args := "", result := none, error_msg := none,
      auth := "" } rfl rfl).1

/-- C2: an inbound request whose method has no registered handler is
answered with exactly one error response carrying the fixed
method-not-found code and the request's id, and no method handler is
invoked; request dispatch is a total function, so processing cannot
crash the dispatcher. -/
theorem c2_unknown_method_error (c : mg_rpc) (i : Nat) (f : mg_rpc_frame)
    (pre : Bool)
    (hnone : c.handlers.find? (fun h => h.method == f.method) = none) :
    Event.errorSent f.id MG_RPC_ERR_NOT_FOUND ∈ (handleRequest c i f pre).2 ∧
    (handleRequest c i f pre).2.countP Event.isNotFoundError = 1 ∧
    (handleRequest c i f pre).2.countP Event.isHandlerCall = 0 := by
  have hre : requestEvents (learnDst c i f.src).1 f pre =
      [Event.errorSent f.id MG_RPC_ERR_NOT_FOUND] := by
    unfold requestEvents
    rw [(learnDst_preserves c i f.src).1, hnone]
  have hev : (handleRequest c i f pre).2 =
      (learnDst c i f.src).2 ++ [Event.errorSent f.id MG_RPC_ERR_NOT_FOUND] := by
    unfold handleRequest
    rw [hre]
  have hobs := learnDst_events_observer c i f.src
  refine ⟨?_, ?_, ?_⟩
  · rw [hev]
    exact List.mem_append_right _ (List.mem_singleton.mpr rfl)
  · rw [hev, List.countP_append]
    have h0 : (learnDst c i f.src).2.countP Event.isNotFoundError = 0 :=
      List.countP_eq_zero.mpr (fun e he => by simp [(hobs e he).2.2])
    rw [h0]
    simp [Event.isNotFoundError]
  · rw [hev, List.countP_append]
    have h0 : (learnDst c i f.src).2.countP Event.isHandlerCall = 0 :=
      List.countP_eq_zero.mpr (fun e he => by simp [(hobs e he).1])
    rw [h0]
    simp [Event.isHandlerCall]

/-- Witness for C2: the spec's scenario of calling Sys.GetInfo with no
handler registered yields exactly the not-found error and no handler
invocation. -/
theorem c2_unknown_method_error_witness :
    Event.errorSent 7 MG_RPC_ERR_NOT_FOUND ∈
      (handleRequest
        { cfg_id := "dev1",
          channels := [{ dst := "*", is_trusted := true, is_open := true,
                         is_busy := false, ch_type := "uart" }],
          pending := [], handlers := [], prehandler := none, observers := [],
          next_id := 1 } 0
        { version := 2, id := 7, error_code := 0, src := "cloud", dst := "",
          tag := "", method := "Sys.GetInfo", args := "", result := none,
          error_msg := none, auth := "" } true).2 :=
  (c2_unknown_method_error
    { cfg_id := "dev1",
      channels := [{ dst := "*", is_trusted := true, is_open := true,
                     is_busy := false, ch_type := "uart" }],
      pending := [], handlers := [], prehandler := none, observers := [],
      next_id := 1 } 0
    { version := 2, id := 7, error_code := 0, src := "cloud", dst := "",
      tag := "", method := "Sys.GetInfo", args := "", result := none,
      error_msg := none, auth := "" } true (by decide)).1

/-- C9: the prehandler never runs for an unknown method, and any
prehandler invocation during request dispatch implies a handler is
registered for the frame's method. -/
theorem c9_prehandler_only_for_existing (c : mg_rpc) (i : Nat)
    (f : mg_rpc_frame) (pre : Bool) :
    (c.handlers.find? (fun h => h.method == f.method) = none →
      (handleRequest c i f pre).2.countP Event.isPrehandlerCall = 0) ∧
    (∀ e ∈ (handleRequest c i f pre).2, e.isPrehandlerCall = true →
      (c.handlers.find? (fun h => h.method == f.method)).isSome = true) := by
  have hobs := learnDst_events_observer c i f.src
  constructor
  · intro hnone
    have hre : requestEvents (learnDst c i f.src).1 f pre =
        [Event.errorSent f.id MG_RPC_ERR_NOT_FOUND] := by
      unfold requestEvents
      rw [(learnDst_preserves c i f.src).1, hnone]
    have hev : (handleRequest c i f pre).2 =
        (learnDst c i f.src).2 ++ [Event.errorSent f.id MG_RPC_ERR_NOT_FOUND] := by
      unfold handleRequest
      rw [hre]
    rw [hev, List.countP_append]
    have h0 : (learnDst c i f.src).2.countP Event.isPrehandlerCall = 0 :=
      List.countP_eq_zero.mpr (fun e he => by simp [(hobs e he).2.1])
    rw [h0]
    simp [Event.isPrehandlerCall]
  · intro e he hpe
    cases hf : c.handlers.find? (fun h => h.method == f.method) with
    | some h => rfl
    | none =>
      exfalso
      have hre : requestEvents (learnDst c i f.src).1 f pre =
          [Event.errorSent f.id MG_RPC_ERR_NOT_FOUND] := by
        unfold requestEvents
        rw [(learnDst_preserves c i f.src).1, hf]
      have hev : (handleRequest c i f pre).2 =
          (learnDst c i f.src).2 ++ [Event.errorSent f.id MG_RPC_ERR_NOT_FOUND] := by
        unfold handleRequest
        rw [hre]
      rw [hev] at he
      rcases List.mem_append.mp he with hm | hm
      · rw [(hobs e hm).2.1] at hpe
        exact Bool.false_ne_true hpe
      · rw [List.mem_singleton.mp hm] at hpe
        exact Bool.false_ne_true hpe

/-- Witness for C9: with no handlers registered but a prehandler set,
dispatching an unknown-method request produces zero prehandler
invocations. -/
theorem c9_prehandler_only_for_existing_witness :
    (handleRequest
      { cfg_id := "dev1",
        channels := [{ dst := "*", is_trusted := true, is_open := true,
                       is_busy := false, ch_type := "uart" }],
        pending := [], handlers := [], prehandler := some 9, observers := [],
        next_id := 1 } 0
      { version := 2, id := 7, error_code := 0, src := "cloud", dst := "",
        tag := "", method := "Sys.GetInfo", args := "", result := none,
        error_msg := none, auth := "" } true).2.countP
      Event.isPrehandlerCall = 0 :=
  (c9_prehandler_only_for_existing
    { cfg_id := "dev1",
      channels := [{ dst := "*", is_trusted := true, is_open := true,
                     is_busy := false, ch_type := "uart" }],
      pending := [], handlers := [], prehandler := some 9, observers := [],
      next_id := 1 } 0
    { version := 2, id := 7, error_code := 0, src := "cloud", dst := "",
      tag := "", method := "Sys.GetInfo", args := "", result := none,
      error_msg := none, auth := "" } true).1 (by decide)

/-- C7: an inbound request arriving on a channel whose destination is
still unlearned (empty), carrying a non-empty source, binds the source
as the channel's destination and notifies every registered observer
with a channel-open event carrying that destination id. -/
theorem c7_destination_learning (c : mg_rpc) (i : Nat)
    (ch : mg_rpc_channel) (f : mg_rpc_frame) (pre : Bool)
    (hch : c.channels[i]? = some ch) (hd : ch.dst = "") (hs : f.src ≠ "") :
    (handleRequest c i f pre).1.channels[i]? = some { ch with dst := f.src } ∧
    ∃ rest, (handleRequest c i f pre).2 =
      c.observers.map
        (fun p => Event.observerEv p.1 p.2 mg_rpc_event.channel_open f.src) ++ rest := by
  have hl : learnDst c i f.src =
      ({ c with channels := c.channels.set i { ch with dst := f.src } },
       c.observers.map
         (fun p => Event.observerEv p.1 p.2 mg_rpc_event.channel_open f.src)) := by
    unfold learnDst
    rw [hch]
    simp [hd, hs]
  have hl1 : (learnDst c i f.src).1 =
      { c with channels := c.channels.set i { ch with dst := f.src } } := by
    rw [hl]
  have hl2 : (learnDst c i f.src).2 =
      c.observers.map
        (fun p => Event.observerEv p.1 p.2 mg_rpc_event.channel_open f.src) := by
    rw [hl]
  constructor
  · have h1 : (handleRequest c i f pre).1 = (learnDst c i f.src).1 := rfl
    rw [h1, hl1]
    have hlt : i < c.channels.length := (List.getElem?_eq_some_iff.mp hch).1
    simp [List.getElem?_set, hlt]
  · refine ⟨requestEvents (learnDst c i f.src).1 f pre, ?_⟩
    have h2 : (handleRequest c i f pre).2 =
        (learnDst c i f.src).2 ++ requestEvents (learnDst c i f.src).1 f pre := rfl
    rw [h2, hl2]

/-- Witness for C7: a request with source "cloud" arriving on an
unlearned channel binds the channel's destination to "cloud" and
notifies the one registered observer. -/
theorem c7_destination_learning_witness :
    (handleRequest
      { cfg_id := "dev1",
        channels := [{ dst := "", is_trusted := true, is_open := true,
                       is_busy := false, ch_type := "uart" }],
        pending := [], handlers := [], prehandler := none,
        observers := [(11, 12)], next_id := 1 } 0
      { version := 2, id := 7, error_code := 0, src := "cloud", dst := "",
        tag := "", method := "Sys.GetInfo", args := "", result := none,
        error_msg := none, auth := "" } true).1.channels[0]? =
      some { dst := "cloud", is_trusted := true, is_open := true,
             is_busy := false, ch_type := "uart" } :=
  (c7_destination_learning
    { cfg_id := "dev1",
      channels := [{ dst := "", is_trusted := true, is_open := true,
                     is_busy := false, ch_type := "uart" }],
      pending := [], handlers := [], prehandler := none,
      observers := [(11, 12)], next_id := 1 } 0
    { dst := "", is_trusted := true, is_open := true, is_busy := false,
      ch_type := "uart" }
    { version := 2, id := 7, error_code := 0, src := "cloud", dst := "",
      tag := "", method := "Sys.GetInfo", args := "", result := none,
      error_msg := none, auth := "" } true (by decide) rfl (by decide)).1
